import Mathlib

/-!
Shallow embedding of `src/main.py` (class `BoardGameMechanicsAnalyser`),
a script that loads a board-game CSV with pandas, asks a generative-AI
client how many of each game's mechanics apply, and aggregates tallies.

The embedding models:
  * pandas cells as an inductive `Cell` (string / integer / NaN-null);
  * a parsed CSV as a `Table` (header list plus rows of cells);
  * Python dict records (`to_dict(orient='records')`) as association
    lists `PyDict`;
  * Python exceptions as the inductive `PyErr`;
  * the generative-AI client as an injected function
    `String → Except PyErr String` (prompt in, response text out);
  * Python string/int primitives (`str.strip`, `int(...)`, `str.split(",")`,
    list slicing `xs[:k]`) as executable Lean functions with Python's
    exact semantics (including negative-index slicing and underscore
    digit grouping in `int`).

Stateful methods become explicit state passing; fallible code returns
`Except PyErr`.
-/

set_option maxHeartbeats 1000000

namespace BoardGame

/-- One pandas cell: a string, an integer, or a missing value (NaN/None). -/
inductive Cell where
  | str (s : String)
  | num (n : Int)
  | null
  deriving DecidableEq, Repr

/-- A parsed delimited file: the header names and the rows of cells,
each row aligned positionally with the header (as `pd.read_csv` yields). -/
structure Table where
  headers : List String
  rows : List (List Cell)
  deriving DecidableEq, Repr

/-- A Python dict record mapping column name to cell, as produced by
`DataFrame.to_dict(orient='records')`.  First-match lookup, like a dict
whose keys are unique. -/
abbrev PyDict := List (String × Cell)

/-- The Python exceptions the script can raise:
`KeyError` (missing dict key), `AttributeError` (method on a non-string,
e.g. `.replace` on NaN), `ValueError` (bad `int(...)` literal, missing
column, missing game), `FileNotFoundError`, an error raised by the
generative-AI client, and `ZeroDivisionError`. -/
inductive PyErr where
  | keyError (key : String)
  | attributeError
  | valueError (msg : String)
  | fileNotFoundError (msg : String)
  | clientError (msg : String)
  | zeroDivisionError
  deriving DecidableEq, Repr

/-- The characters Python `str.strip()` removes (ASCII whitespace). -/
def isPySpace (c : Char) : Bool :=
  (c == ' ') || (c == '\t') || (c == '\n') || (c == '\r') ||
  (c == Char.ofNat 11) || (c == Char.ofNat 12)

/-- `str.strip()` on a character list: drop whitespace from both ends. -/
def pyStripList (l : List Char) : List Char :=
  (((l.dropWhile isPySpace).reverse.dropWhile isPySpace)).reverse

/-- Python `str.strip()`. -/
def pyStrip (s : String) : String :=
  ⟨pyStripList s.data⟩

/-- The value of a decimal digit character, if it is one. -/
def digitVal? (c : Char) : Option Nat :=
  if c.isDigit then some (c.toNat - 48) else none

/-- Digits of a Python integer literal after the first digit: decimal
digits with single underscores allowed between digits (`int("1_2") = 12`,
`int("1__2")` and `int("1_")` fail). -/
def pyDigitsVal : List Char → Nat → Option Nat
  | [], acc => some acc
  | ['_'], _ => none
  | '_' :: c :: cs, acc =>
    match digitVal? c with
    | some d => pyDigitsVal cs (acc * 10 + d)
    | none => none
  | c :: cs, acc =>
    match digitVal? c with
    | some d => pyDigitsVal cs (acc * 10 + d)
    | none => none

/-- An unsigned Python integer literal: must start with a digit. -/
def pyUnsignedInt? : List Char → Option Nat
  | [] => none
  | c :: cs =>
    match digitVal? c with
    | some d => pyDigitsVal cs d
    | none => none

/-- Python `int(s)` on a string: strips surrounding whitespace, accepts
an optional sign, then base-10 digits (with underscore grouping).
Returns `none` where Python raises `ValueError`. -/
def pyInt (s : String) : Option Int :=
  match pyStripList s.data with
  | '+' :: cs => (pyUnsignedInt? cs).map (fun n => (n : Int))
  | '-' :: cs => (pyUnsignedInt? cs).map (fun n => -(n : Int))
  | cs => (pyUnsignedInt? cs).map (fun n => (n : Int))

/-- `int(responseText.strip())`, the response-parsing step of the script
(`parseCount` in the specification): `none` models `ValueError`. -/
def parseCount (s : String) : Option Int :=
  pyInt (pyStrip s)

/-- Worker for `pySplitComma`: `acc` is the piece built so far. -/
def splitCommaAux : List Char → List Char → List String
  | [], acc => [⟨acc⟩]
  | ',' :: cs, acc => ⟨acc⟩ :: splitCommaAux cs []
  | c :: cs, acc => splitCommaAux cs (acc ++ [c])

/-- Python `s.split(",")`: the comma-separated pieces, untrimmed; an
empty string yields `[""]`, so the result is never empty. -/
def pySplitComma (s : String) : List String :=
  splitCommaAux s.data []

/-- Python `s.count(",")`: the number of comma characters in `s`. -/
def countCommas (s : String) : Nat :=
  s.data.count ','

/-- A single-quote character as a string (used inside prompt texts). -/
def squote : String :=
  String.singleton (Char.ofNat 39)

/-- The normalisation the script applies to a raw mechanics string
before putting it in the prompt (line 39 / line 86):
`mechanics.replace(",", ", ").replace(" and ", ", ").replace(" or ", ", ")`. -/
def normalizeMechanics (m : String) : String :=
  ((m.replace "," ", ").replace " and " ", ").replace " or " ", "

/-- The f-string prompt of lines 41 and 90. -/
def mkPrompt (gameName mechanicsPrompt : String) : String :=
  "Verify the mechanics of the game " ++ squote ++ gameName ++ squote ++
  ". The mechanics are " ++ mechanicsPrompt ++
  ". Please only give me the total amount that apply without any text formatting."

/-- Python list slicing `xs[:k]` with an `Int` bound: for `k ≥ 0` the
first `k` entries (clamped to the length); for `k < 0` all but the last
`-k` entries (empty when `-k` exceeds the length). -/
def pySliceTo (l : List α) (k : Int) : List α :=
  if 0 ≤ k then l.take k.toNat else l.take (l.length - (-k).toNat)

/-- Python `str(...)` of a cell, as an f-string would render it. -/
def pyStrCell : Cell → String
  | .str s => s
  | .num n => toString n
  | .null => "nan"

/-! ### Dataset loading and cleaning (`load_dataset_clean`, lines 13-27) -/

/-- The required columns of line 19. -/
def requiredColumns : List String :=
  ["Name", "Year Published", "Mechanics"]

/-- Line 20: `all(col in self.dataset.columns for col in required_columns)`. -/
def requiredPresent (t : Table) : Bool :=
  requiredColumns.all (fun c => t.headers.contains c)

/-- Whether a cell is missing (pandas NaN), as `dropna` sees it. -/
def cellIsNull : Cell → Bool
  | .null => true
  | _ => false

/-- One row of a DataFrame as a dict record, `to_dict(orient='records')`:
column names zipped with the row's cells. -/
def toRecord (headers : List String) (row : List Cell) : PyDict :=
  headers.zip row

/-- Dict/record access `rec[col]`, yielding `null` for an absent column
(absent columns do not occur for rows of a schema-checked DataFrame). -/
def recordGet (r : PyDict) (c : String) : Cell :=
  (List.lookup c r).getD Cell.null

/-- Column access `row[col]` on a positional row, via the header. -/
def getCell (headers : List String) (row : List Cell) (c : String) : Cell :=
  recordGet (toRecord headers row) c

/-- The per-row predicate of `dropna(subset=required_columns)` (line 24):
every required field of the row is non-null. -/
def rowRequiredOk (headers : List String) (row : List Cell) : Bool :=
  requiredColumns.all (fun c => !(cellIsNull (getCell headers row c)))

/-- The elementwise pandas comparison `cell != 0` of line 25: an integer
cell is compared numerically; any non-numeric cell compares unequal. -/
def pyCellNeZero : Cell → Bool
  | .num n => n != 0
  | _ => true

/-- Line 24: `self.dataset.dropna(subset=required_columns)`. -/
def dropnaRequired (t : Table) : Table :=
  { t with rows := t.rows.filter (fun r => rowRequiredOk t.headers r) }

/-- Line 25: keep the rows whose `Year Published` cell is `!= 0`. -/
def yearNonZero (t : Table) : Table :=
  { t with rows :=
      t.rows.filter (fun r => pyCellNeZero (getCell t.headers r "Year Published")) }

/-- `load_dataset_clean` (lines 13-27).  The file system is passed in as
`file : Option Table`: `none` models a missing file (`FileNotFoundError`),
`some t` the parsed CSV.  A missing required column raises
`ValueError("Dataset is missing required columns")`; otherwise the
cleaned dataset (dropna on required columns, then `Year Published != 0`)
is returned. -/
def load_dataset_clean (path : String) (file : Option Table) : Except PyErr Table :=
  match file with
  | none => .error (.fileNotFoundError ("File not found: " ++ path))
  | some t =>
    if requiredPresent t then .ok (yearNonZero (dropnaRequired t))
    else .error (.valueError "Dataset is missing required columns")

/-! ### Single-game verification (`verify_mechanics_with_genai`, lines 30-54) -/

/-- The pandas elementwise comparison `cell == game_name` of line 34:
true only for an equal string cell. -/
def cellEqStr (c : Cell) (s : String) : Bool :=
  match c with
  | .str t => t == s
  | _ => false

/-- `verify_mechanics_with_genai` (lines 30-54).  The cleaned dataset is
passed explicitly as dict records, and the generative-AI client as
`client : String → Except PyErr String`.  Selects the rows whose `Name`
equals `gameName`; an empty selection raises `ValueError` ("not found").
Builds the prompt from the first match's `Mechanics` string, calls the
client, and returns `int(response.strip()) / (mechanics.count(",") + 1)`
as a rational. -/
def verify_mechanics_with_genai (ds : List PyDict)
    (client : String → Except PyErr String) (gameName : String) : Except PyErr Rat :=
  match ds.filter (fun row => cellEqStr (recordGet row "Name") gameName) with
  | [] => .error (.valueError
      ("Game " ++ squote ++ gameName ++ squote ++ " not found in the dataset."))
  | row :: _ =>
    match List.lookup "Mechanics" row with
    | none => .error (.keyError "Mechanics")
    | some (Cell.str mechanics) =>
      let mechanicsPrompt := normalizeMechanics mechanics
      let prompt := mkPrompt gameName mechanicsPrompt
      match client prompt with
      | .error e => .error e
      | .ok respText =>
        let numberOfMechanics : Nat := countCommas mechanics + 1
        match parseCount respText with
        | none => .error (.valueError "invalid literal for int() with base 10")
        | some k => .ok ((k : Rat) / ((numberOfMechanics : Nat) : Rat))
    | some _ => .error .attributeError

/-! ### Top-N selection (`get_top_200_list`, lines 57-71)

`DataFrame.sort_values` is pandas library code; its default sorting kind
is `quicksort`, which pandas documents as NOT stable.  It is therefore
modelled relationally by its documented contract: the output is SOME
permutation of the rows that is sorted by the requested column; the
order of tied rows is not determined. -/

/-- The comparison pandas uses between two cells of the sort column for
adjacent rows of a sorted result: numeric cells compare numerically,
string cells lexicographically (`ascending=False` reverses).  Mixed or
null cells are not modelled (pandas raises or floats NaN to the end). -/
def cellOrdB (ascending : Bool) (a b : Cell) : Bool :=
  match a, b with
  | .num x, .num y => if ascending then decide (x ≤ y) else decide (y ≤ x)
  | .str x, .str y => if ascending then decide (x ≤ y) else decide (y ≤ x)
  | _, _ => false

/-- `get_top_200_list` (lines 57-71) as a relation between its inputs
and an output it may produce: the sort column must exist (else line 62
raises `ValueError`), and the output is the first 200 rows of some
key-sorted permutation of the cleaned rows, converted to dict records by
`to_dict(orient='records')`.  The sort is `sort_values` with the default
`kind='quicksort'`, which is not stable, hence the existential over the
sorted permutation. -/
def get_top_200_spec (t : Table) (sortBy : String) (ascending : Bool)
    (out : List PyDict) : Prop :=
  sortBy ∈ t.headers ∧
  ∃ sorted : List (List Cell),
    t.rows.Perm sorted ∧
    List.Pairwise (fun a b =>
      cellOrdB ascending (getCell t.headers a sortBy) (getCell t.headers b sortBy) = true) sorted ∧
    out = (sorted.take 200).map (toRecord t.headers)

/-! ### Batch aggregation (`calculate_total_applicable_mechanics`, lines 74-137) -/

/-- Python set insertion: add the element unless already present
(membership order is irrelevant for set semantics; insertion order is
kept so the model stays a concrete list). -/
def pySetAdd (s : List String) (x : String) : List String :=
  if x ∈ s then s else s ++ [x]

/-- Python `set.update(xs)`: insert every element of `xs`. -/
def pySetUpdate (s : List String) (xs : List String) : List String :=
  xs.foldl pySetAdd s

/-- `Counter` increment of a single key: bump an existing key in place,
or append a new key with count 1. -/
def counterAdd : List (String × Nat) → String → List (String × Nat)
  | [], k => [(k, 1)]
  | (a, n) :: rest, k =>
    if a = k then (a, n + 1) :: rest else (a, n) :: counterAdd rest k

/-- `Counter.update(ks)`: increment the count of every element of `ks`. -/
def counterUpdate (c : List (String × Nat)) (ks : List String) : List (String × Nat) :=
  ks.foldl counterAdd c

/-- The mutable accumulators of the batch loop (lines 78-80):
`total_applicable_mechanics`, `mechanic_counter`, `all_mechanics`. -/
structure AggState where
  total : Int
  counter : List (String × Nat)
  allMechanics : List String
  deriving DecidableEq, Repr

/-- The accumulators before the loop (lines 78-80). -/
def initState : AggState :=
  { total := 0, counter := [], allMechanics := [] }

/-- The `try:` body of the per-game loop (lines 83-104), with the state
threaded explicitly.  Returns the state as updated up to the point of
any exception, together with the exception if one was raised:
  * `game['Name']` / `game['Mechanics']` raise `KeyError` when absent;
  * `.replace` on a non-string `Mechanics` cell raises `AttributeError`
    (line 86, before `all_mechanics` is updated);
  * `all_mechanics.update(mechanics.split(","))` runs before the client
    call, so a later failure still leaves the split substrings recorded;
  * the client call and `int(response.text.strip())` may fail;
  * on success the parsed count is added to the running total and the
    trimmed first-`k` slice of the split list is tallied. -/
def gameBody (client : String → Except PyErr String) (st : AggState)
    (game : PyDict) : AggState × Option PyErr :=
  match List.lookup "Name" game with
  | none => (st, some (.keyError "Name"))
  | some nameCell =>
    match List.lookup "Mechanics" game with
    | none => (st, some (.keyError "Mechanics"))
    | some (Cell.str mechanics) =>
      let mechanicsPrompt := normalizeMechanics mechanics
      let st1 := { st with allMechanics := pySetUpdate st.allMechanics (pySplitComma mechanics) }
      let prompt := mkPrompt (pyStrCell nameCell) mechanicsPrompt
      match client prompt with
      | .error e => (st1, some e)
      | .ok respText =>
        match parseCount respText with
        | none => (st1, some (.valueError "invalid literal for int() with base 10"))
        | some k =>
          let st2 := { st1 with total := st1.total + k }
          let assigned := pySliceTo (pySplitComma mechanics) k
          let st3 := { st2 with counter := counterUpdate st2.counter (assigned.map pyStrip) }
          (st3, none)
    | some _ => (st, some .attributeError)

/-- The `for game in top_200_list` loop (lines 82-106).  An exception in
the body is caught by the `except` clause, whose handler prints
`game['Name']` — so a record without a `Name` key re-raises `KeyError`
from inside the handler and aborts the whole batch; otherwise the error
is logged and the loop continues with the partially updated state. -/
def aggLoop (client : String → Except PyErr String) (st : AggState) :
    List PyDict → Except PyErr AggState
  | [] => .ok st
  | g :: gs =>
    match gameBody client st g with
    | (st', none) => aggLoop client st' gs
    | (st', some _) =>
      match List.lookup "Name" g with
      | some _ => aggLoop client st' gs
      | none => .error (.keyError "Name")

/-- What `calculate_total_applicable_mechanics` computes and returns /
prints (lines 108-137): the average, the running total, the
ground-truth denominator `sum(len(key) for key in top_200_list)` (the
number of keys of each record), the tally, the set of split substrings,
and the never-assigned difference. -/
structure AggResult where
  average : Rat
  totalApplicable : Int
  groundTruthTotal : Int
  counter : List (String × Nat)
  allMechanics : List String
  neverAssigned : List String
  deriving DecidableEq, Repr

/-- Line 109: `total_length_top_200 = sum(len(key) for key in top_200_list)`
— `len` of a dict record is its number of keys. -/
def groundTruth (top200 : List PyDict) : Int :=
  (top200.map (fun g => (g.length : Int))).sum

/-- `calculate_total_applicable_mechanics` (lines 74-137).  Runs the
per-game loop, then computes the ground-truth denominator of line 109
and `average = total_applicable_mechanics / total_length_top_200`, which
in Python raises `ZeroDivisionError` when the denominator is 0 (made
explicit here as a guard).  `unassigned_mechanics` is the set difference
`all_mechanics - set(mechanic_counter.keys())`. -/
def calculate_total_applicable_mechanics (client : String → Except PyErr String)
    (top200 : List PyDict) : Except PyErr AggResult :=
  match aggLoop client initState top200 with
  | .error e => .error e
  | .ok st =>
    if groundTruth top200 == 0 then .error .zeroDivisionError
    else .ok
      { average := (st.total : Rat) / (groundTruth top200 : Rat)
        totalApplicable := st.total
        groundTruthTotal := groundTruth top200
        counter := st.counter
        allMechanics := st.allMechanics
        neverAssigned := st.allMechanics.filter
          (fun m => decide (m ∉ st.counter.map Prod.fst)) }

/-- The counter field of an aggregation outcome, when it succeeded. -/
def aggCounter? : Except PyErr AggResult → Option (List (String × Nat))
  | .ok r => some r.counter
  | .error _ => none

/-- The parsed applicable count a single game contributes to the running
total `total_applicable_mechanics`: zero when its processing fails at
any point before line 94, otherwise the integer parsed from the client's
response.  Mirrors the branch structure of `gameBody`. -/
def gameParsedCount (client : String → Except PyErr String) (game : PyDict) : Int :=
  match List.lookup "Name" game with
  | none => 0
  | some nameCell =>
    match List.lookup "Mechanics" game with
    | none => 0
    | some (Cell.str mechanics) =>
      match client (mkPrompt (pyStrCell nameCell) (normalizeMechanics mechanics)) with
      | .error _ => 0
      | .ok respText => (parseCount respText).getD 0
    | some _ => 0

/-- The untrimmed comma-split substrings a single game contributes to
`all_mechanics`: the split of its raw `Mechanics` string when the record
reaches line 87, nothing otherwise. -/
def gameSplitMechanics (game : PyDict) : List String :=
  match List.lookup "Name" game, List.lookup "Mechanics" game with
  | some _, some (Cell.str m) => pySplitComma m
  | _, _ => []

/-! ### Concrete demonstration inputs used by witness theorems -/

/-- A deterministic stub AI client whose every response is `"1"`. -/
def demoClient : String → Except PyErr String :=
  fun _ => .ok "1"

/-- A stub AI client that always fails with a network error. -/
def demoFailClient : String → Except PyErr String :=
  fun _ => .error (.clientError "boom")

/-- A well-formed game record with two comma-separated mechanics. -/
def demoGame : PyDict :=
  [("Name", Cell.str "G"), ("Mechanics", Cell.str "x,y")]

/-- A one-game batch. -/
def demoGames : List PyDict :=
  [demoGame]

/-- The aggregation result of running `demoClient` over `demoGames`:
the response `"1"` parses to 1, so `x` is tallied, `y` never assigned,
and the ground truth is the 2 keys of the single record. -/
def demoRes : AggResult :=
  { average := ((1 : Int) : Rat) / ((2 : Int) : Rat)
    totalApplicable := 1
    groundTruthTotal := 2
    counter := [("x", 1)]
    allMechanics := ["x", "y"]
    neverAssigned := ["y"] }

/-- A parsed CSV with one clean row, one row with a null `Name`, and one
row with `Year Published` 0. -/
def demoTable : Table :=
  { headers := ["Name", "Year Published", "Mechanics"]
    rows := [[Cell.str "A", Cell.num 1999, Cell.str "m1"],
             [Cell.null, Cell.num 2000, Cell.str "m2"],
             [Cell.str "B", Cell.num 0, Cell.str "m3"]] }

/-- A parsed CSV missing the required `Year Published` and `Mechanics`
columns. -/
def demoBadTable : Table :=
  { headers := ["Name"], rows := [] }

/-- The cleaned form of `demoTable`: only the fully populated,
nonzero-year row survives. -/
def demoCleanTable : Table :=
  { headers := ["Name", "Year Published", "Mechanics"]
    rows := [[Cell.str "A", Cell.num 1999, Cell.str "m1"]] }

/-- A one-column table with two distinct ratings, for sorting. -/
def demoSortTable : Table :=
  { headers := ["Rating Average"], rows := [[Cell.num 3], [Cell.num 5]] }

/-- A table whose two rows are tied on the rating column. -/
def demoTieTable : Table :=
  { headers := ["Name", "Rating Average"]
    rows := [[Cell.str "A", Cell.num 1], [Cell.str "B", Cell.num 1]] }

/-! ### Helper lemmas -/

theorem mem_pySetAdd (s : List String) (y x : String) :
    x ∈ pySetAdd s y ↔ x ∈ s ∨ x = y := by
  unfold pySetAdd
  split
  · rename_i hy
    constructor
    · exact fun h => Or.inl h
    · rintro (h | rfl)
      · exact h
      · exact hy
  · simp

theorem mem_pySetUpdate (xs : List String) :
    ∀ (s : List String) (x : String), x ∈ pySetUpdate s xs ↔ x ∈ s ∨ x ∈ xs := by
  induction xs with
  | nil => intro s x; simp [pySetUpdate]
  | cons y ys ih =>
    intro s x
    show x ∈ pySetUpdate (pySetAdd s y) ys ↔ _
    rw [ih, mem_pySetAdd]
    simp only [List.mem_cons]
    tauto

theorem gameBody_total (client : String → Except PyErr String) (st : AggState)
    (g : PyDict) : (gameBody client st g).1.total = st.total + gameParsedCount client g := by
  unfold gameBody gameParsedCount
  cases hN : List.lookup "Name" g with
  | none => simp
  | some nameCell =>
    cases hM : List.lookup "Mechanics" g with
    | none => simp
    | some mc =>
      cases mc with
      | str m =>
        cases hc : client (mkPrompt (pyStrCell nameCell) (normalizeMechanics m)) with
        | error e => simp [hc]
        | ok r =>
          cases hp : parseCount r with
          | none => simp [hc, hp]
          | some k => simp [hc, hp]
      | num n => simp
      | null => simp

theorem gameBody_error_state (client : String → Except PyErr String) (st : AggState)
    (g : PyDict) (e : PyErr) (h : (gameBody client st g).2 = some e) :
    (gameBody client st g).1.total = st.total ∧ (gameBody client st g).1.counter = st.counter := by
  unfold gameBody at *
  cases hN : List.lookup "Name" g with
  | none => simp
  | some nameCell =>
    cases hM : List.lookup "Mechanics" g with
    | none => simp
    | some mc =>
      cases mc with
      | str m =>
        cases hc : client (mkPrompt (pyStrCell nameCell) (normalizeMechanics m)) with
        | error e' => simp [hc]
        | ok r =>
          cases hp : parseCount r with
          | none => simp [hc, hp]
          | some k =>
            simp [hN, hM, hc, hp] at h
      | num n => simp
      | null => simp

theorem gameBody_allMechanics (client : String → Except PyErr String) (st : AggState)
    (g : PyDict) (x : String) :
    x ∈ (gameBody client st g).1.allMechanics ↔
      x ∈ st.allMechanics ∨ x ∈ gameSplitMechanics g := by
  unfold gameBody gameSplitMechanics
  cases hN : List.lookup "Name" g with
  | none => simp
  | some nameCell =>
    cases hM : List.lookup "Mechanics" g with
    | none => simp
    | some mc =>
      cases mc with
      | str m =>
        cases hc : client (mkPrompt (pyStrCell nameCell) (normalizeMechanics m)) with
        | error e' => simp [hc, mem_pySetUpdate]
        | ok r =>
          cases hp : parseCount r with
          | none => simp [hc, hp, mem_pySetUpdate]
          | some k => simp [hc, hp, mem_pySetUpdate]
      | num n => simp
      | null => simp

theorem aggLoop_total (client : String → Except PyErr String) :
    ∀ (games : List PyDict) (st st' : AggState),
      aggLoop client st games = Except.ok st' →
      st'.total = st.total + (games.map (gameParsedCount client)).sum := by
  intro games
  induction games with
  | nil =>
    intro st st' h
    simp only [aggLoop] at h
    cases h
    simp
  | cons g gs ih =>
    intro st st' h
    simp only [aggLoop] at h
    cases hb : gameBody client st g with
    | mk stb e? =>
      rw [hb] at h
      have htot : stb.total = st.total + gameParsedCount client g := by
        have := gameBody_total client st g
        rw [hb] at this
        exact this
      cases e? with
      | none =>
        have := ih stb st' h
        rw [this, htot]
        simp [List.sum_cons]
        ring
      | some e =>
        cases hN : List.lookup "Name" g with
        | none => rw [hN] at h; cases h
        | some c =>
          rw [hN] at h
          have := ih stb st' h
          rw [this, htot]
          simp [List.sum_cons]
          ring

theorem aggLoop_allMechanics (client : String → Except PyErr String) :
    ∀ (games : List PyDict) (st st' : AggState),
      aggLoop client st games = Except.ok st' →
      ∀ x, x ∈ st'.allMechanics ↔
        x ∈ st.allMechanics ∨ x ∈ (games.map gameSplitMechanics).flatten := by
  intro games
  induction games with
  | nil =>
    intro st st' h x
    simp only [aggLoop] at h
    cases h
    simp
  | cons g gs ih =>
    intro st st' h x
    simp only [aggLoop] at h
    cases hb : gameBody client st g with
    | mk stb e? =>
      rw [hb] at h
      have hmem : x ∈ stb.allMechanics ↔ x ∈ st.allMechanics ∨ x ∈ gameSplitMechanics g := by
        have := gameBody_allMechanics client st g x
        rw [hb] at this
        exact this
      cases e? with
      | none =>
        rw [ih stb st' h x, hmem]
        simp [or_assoc]
      | some e =>
        cases hN : List.lookup "Name" g with
        | none => rw [hN] at h; cases h
        | some c =>
          rw [hN] at h
          rw [ih stb st' h x, hmem]
          simp [or_assoc]

theorem pyStripList_cons_space (l : List Char) :
    pyStripList (' ' :: l) = pyStripList l := by
  simp [pyStripList, List.dropWhile_cons, isPySpace]

theorem pyStripList_append_space (l : List Char) :
    pyStripList (l ++ [' ']) = pyStripList l := by
  unfold pyStripList
  rw [List.dropWhile_append]
  by_cases h : (List.dropWhile isPySpace l).isEmpty = true
  · rw [if_pos h]
    rw [List.isEmpty_iff] at h
    simp [h, List.dropWhile_cons, isPySpace]
  · rw [if_neg h]
    rw [List.reverse_append]
    simp [List.dropWhile_cons, isPySpace]

theorem pyStrip_pad (s : String) : pyStrip (" " ++ s ++ " ") = pyStrip s := by
  cases s with
  | mk l =>
    show (⟨pyStripList ((" ".data ++ l) ++ " ".data)⟩ : String) = ⟨pyStripList l⟩
    have : (" ".data ++ l) ++ " ".data = ' ' :: (l ++ [' ']) := by simp
    rw [this, pyStripList_cons_space, pyStripList_append_space]

/-- C6: for every response text, `parseCount` trims surrounding
whitespace and parses the remainder as a base-10 integer: it fails
(models `ValueError`) on `"three"`, `""` and `"12abc"`, succeeds with
`12` on `" 12 "`, and more generally padding a response with surrounding
whitespace never changes the parse result. -/
theorem claim_C6 :
    parseCount "three" = none ∧ parseCount "" = none ∧
    parseCount "12abc" = none ∧ parseCount " 12 " = some 12 ∧
    ∀ s : String, parseCount (" " ++ s ++ " ") = parseCount s := by
  refine ⟨rfl, rfl, rfl, rfl, ?_⟩
  intro s
  show pyInt (pyStrip (" " ++ s ++ " ")) = pyInt (pyStrip s)
  rw [pyStrip_pad]

/-- C10: batch aggregation over an empty sequence of games does not
return a result: the ground-truth denominator
`sum(len(key) for key in top_200_list)` is 0, and the average
computation `total / 0` raises an uncaught `ZeroDivisionError`,
whatever the AI client is. -/
theorem claim_C10 (client : String → Except PyErr String) :
    calculate_total_applicable_mechanics client [] = .error .zeroDivisionError := rfl

/-- C1 (amended): during batch aggregation, for a game whose record has
a `Name` and a string `Mechanics` field and whose response parses to the
integer `k`, the subset tallied into the mechanic counter is exactly the
Python slice `mechanics.split(",")[:k]` (trimmed entrywise): for
`0 ≤ k` the first `k` entries, hence all entries when `k` exceeds the
list length and none when `k = 0`; but for NEGATIVE `k` Python slice
semantics take all but the last `-k` entries — not none, as the original
claim stated. -/
theorem claim_C1 (client : String → Except PyErr String) (st : AggState)
    (game : PyDict) (nameCell : Cell) (m resp : String) (k : Int)
    (hName : List.lookup "Name" game = some nameCell)
    (hMech : List.lookup "Mechanics" game = some (Cell.str m))
    (hClient : client (mkPrompt (pyStrCell nameCell) (normalizeMechanics m)) = .ok resp)
    (hParse : parseCount resp = some k) :
    (gameBody client st game).1.counter =
      counterUpdate st.counter ((pySliceTo (pySplitComma m) k).map pyStrip)
    ∧ (0 ≤ k → pySliceTo (pySplitComma m) k = (pySplitComma m).take k.toNat)
    ∧ (((pySplitComma m).length : Int) ≤ k → pySliceTo (pySplitComma m) k = pySplitComma m)
    ∧ (k = 0 → pySliceTo (pySplitComma m) k = [])
    ∧ (k < 0 → pySliceTo (pySplitComma m) k =
        (pySplitComma m).take ((pySplitComma m).length - (-k).toNat)) := by
  refine ⟨?_, ?_, ?_, ?_, ?_⟩
  · unfold gameBody
    simp [hName, hMech, hClient, hParse]
  · intro hk
    unfold pySliceTo
    rw [if_pos hk]
  · intro hk
    have hk0 : (0 : Int) ≤ k := le_trans (Int.natCast_nonneg _) hk
    unfold pySliceTo
    rw [if_pos hk0, List.take_of_length_le]
    rw [Int.le_toNat hk0]
    exact hk
  · rintro rfl
    simp [pySliceTo]
  · intro hk
    unfold pySliceTo
    rw [if_neg (not_le.mpr hk)]

/-- C1 witness: the amended statement evaluated on the concrete one-game
batch `demoGames` with the stub client answering `"1"`. -/
theorem claim_C1_witness :
    List.lookup "Name" demoGame = some (Cell.str "G") ∧
    List.lookup "Mechanics" demoGame = some (Cell.str "x,y") ∧
    demoClient (mkPrompt (pyStrCell (Cell.str "G")) (normalizeMechanics "x,y")) = .ok "1" ∧
    parseCount "1" = some 1 ∧
    ((gameBody demoClient initState demoGame).1.counter =
      counterUpdate initState.counter ((pySliceTo (pySplitComma "x,y") 1).map pyStrip)
    ∧ (0 ≤ (1 : Int) → pySliceTo (pySplitComma "x,y") 1 = (pySplitComma "x,y").take (1 : Int).toNat)
    ∧ (((pySplitComma "x,y").length : Int) ≤ 1 → pySliceTo (pySplitComma "x,y") 1 = pySplitComma "x,y")
    ∧ ((1 : Int) = 0 → pySliceTo (pySplitComma "x,y") 1 = [])
    ∧ ((1 : Int) < 0 → pySliceTo (pySplitComma "x,y") 1 =
        (pySplitComma "x,y").take ((pySplitComma "x,y").length - (-(1 : Int)).toNat))) :=
  ⟨rfl, rfl, rfl, rfl,
   claim_C1 demoClient initState demoGame (Cell.str "G") "x,y" "1" 1 rfl rfl rfl rfl⟩

/-- C1 counterexample: the claim as stated says a negative parsed count
assigns NO entries; but when the client answers `"-1"` for mechanics
`"a,b,c"`, the Python slice `split[:-1]` keeps `["a", "b"]`, so the
tally after the batch is `[("a", 1), ("b", 1)]`, not empty. -/
theorem claim_C1_counterexample :
    aggCounter? (calculate_total_applicable_mechanics (fun _ => .ok "-1")
        [[("Name", Cell.str "G"), ("Mechanics", Cell.str "a,b,c")]]) =
      some [("a", 1), ("b", 1)] ∧
    ([("a", 1), ("b", 1)] : List (String × Nat)) ≠ [] :=
  ⟨rfl, by decide⟩

/-- C7 (amended): a failure inside the per-game `try:` body is caught
and the loop continues with the next game, and the failed game
contributes nothing to the running applicable total or the mechanic
tally — PROVIDED the record has a `Name` key, because the `except`
handler itself evaluates `game['Name']`.  (A record without `Name`
aborts the whole batch; see the counterexample.) -/
theorem claim_C7 (client : String → Except PyErr String) (st : AggState)
    (g : PyDict) (gs : List PyDict) (e : PyErr)
    (hErr : (gameBody client st g).2 = some e)
    (hName : (List.lookup "Name" g).isSome = true) :
    aggLoop client st (g :: gs) = aggLoop client (gameBody client st g).1 gs
    ∧ (gameBody client st g).1.total = st.total
    ∧ (gameBody client st g).1.counter = st.counter := by
  have hstate := gameBody_error_state client st g e hErr
  refine ⟨?_, hstate.1, hstate.2⟩
  obtain ⟨c, hc⟩ := Option.isSome_iff_exists.mp hName
  cases hb : gameBody client st g with
  | mk st' e? =>
    have he : e? = some e := by rw [hb] at hErr; exact hErr
    subst he
    simp only [aggLoop]
    rw [hb, hc]

/-- C7 witness: the amended statement evaluated with the always-failing
stub client on the well-formed record `demoGame`: the client error is
caught, the loop moves on, and total and tally are untouched. -/
theorem claim_C7_witness :
    (gameBody demoFailClient initState demoGame).2 = some (.clientError "boom") ∧
    (List.lookup "Name" demoGame).isSome = true ∧
    (aggLoop demoFailClient initState (demoGame :: []) =
        aggLoop demoFailClient (gameBody demoFailClient initState demoGame).1 []
    ∧ (gameBody demoFailClient initState demoGame).1.total = initState.total
    ∧ (gameBody demoFailClient initState demoGame).1.counter = initState.counter) :=
  ⟨rfl, rfl,
   claim_C7 demoFailClient initState demoGame [] (.clientError "boom") rfl rfl⟩

/-- C7 counterexample: the claim says NO per-game failure aborts the
batch, but a malformed record lacking the `Name` key raises `KeyError`
at `game['Name']`, the handler's own `game['Name']` re-raises it, and
the batch aborts with an error — the following well-formed game is never
processed and no result is produced. -/
theorem claim_C7_counterexample :
    calculate_total_applicable_mechanics (fun _ => .ok "1")
        [[("Mechanics", Cell.str "a")],
         [("Name", Cell.str "H"), ("Mechanics", Cell.str "b")]] =
      .error (.keyError "Name") := rfl

/-- C2: after a successful batch aggregation, the never-assigned result
is exactly the set of untrimmed comma-split substrings of the processed
games' raw mechanics strings minus the set of (trimmed) tally keys —
membership in `neverAssigned` is equivalent to being one of the split
substrings and not a key of the mechanic tally. -/
theorem claim_C2 (client : String → Except PyErr String) (games : List PyDict)
    (res : AggResult)
    (h : calculate_total_applicable_mechanics client games = .ok res) (x : String) :
    x ∈ res.neverAssigned ↔
      (x ∈ (games.map gameSplitMechanics).flatten ∧ x ∉ res.counter.map Prod.fst) := by
  unfold calculate_total_applicable_mechanics at h
  split at h
  · exact absurd h (by simp)
  · rename_i st hl
    split at h
    · exact absurd h (by simp)
    · injection h with h'
      subst h'
      have hmem := aggLoop_allMechanics client games initState st hl x
      simp [initState] at hmem
      simp only [List.mem_filter, decide_eq_true_eq]
      rw [hmem]
      simp [List.mem_flatten]

/-- C2 witness: the equivalence evaluated on the concrete one-game batch
`demoGames` at the never-assigned mechanic `"y"`. -/
theorem claim_C2_witness :
    calculate_total_applicable_mechanics demoClient demoGames = .ok demoRes ∧
    ("y" ∈ demoRes.neverAssigned ↔
      ("y" ∈ (demoGames.map gameSplitMechanics).flatten ∧
       "y" ∉ demoRes.counter.map Prod.fst)) :=
  ⟨rfl, claim_C2 demoClient demoGames demoRes rfl "y"⟩

/-- C3: after a successful batch aggregation, the ground-truth
denominator equals the sum over ALL input games of the number of keys of
that game's record, the running total equals the sum of the per-game
parsed applicable counts, and the average is their quotient. -/
theorem claim_C3 (client : String → Except PyErr String) (games : List PyDict)
    (res : AggResult)
    (h : calculate_total_applicable_mechanics client games = .ok res) :
    res.groundTruthTotal = (games.map (fun g => (g.length : Int))).sum
    ∧ res.totalApplicable = (games.map (gameParsedCount client)).sum
    ∧ res.average = (res.totalApplicable : Rat) / (res.groundTruthTotal : Rat) := by
  unfold calculate_total_applicable_mechanics at h
  split at h
  · exact absurd h (by simp)
  · rename_i st hl
    split at h
    · exact absurd h (by simp)
    · injection h with h'
      subst h'
      have htot := aggLoop_total client games initState st hl
      simp [initState] at htot
      exact ⟨rfl, htot, rfl⟩

/-- C3 witness: the statement evaluated on the concrete one-game batch
`demoGames` (2 record keys, parsed count 1, average 1/2). -/
theorem claim_C3_witness :
    calculate_total_applicable_mechanics demoClient demoGames = .ok demoRes ∧
    (demoRes.groundTruthTotal = (demoGames.map (fun g => (g.length : Int))).sum
    ∧ demoRes.totalApplicable = (demoGames.map (gameParsedCount demoClient)).sum
    ∧ demoRes.average = ((demoRes.totalApplicable : Int) : Rat) / ((demoRes.groundTruthTotal : Int) : Rat)) :=
  ⟨rfl, claim_C3 demoClient demoGames demoRes rfl⟩

/-- C4: for every parsed input table, the cleaned dataset returned by
the loader contains exactly those rows whose required fields `Name`,
`Year Published` and `Mechanics` are all non-null and whose
`Year Published` is not 0, and the survivors keep their original
relative order (the row list is literally a filter of the input rows). -/
theorem claim_C4 (path : String) (t c : Table)
    (h : load_dataset_clean path (some t) = .ok c) :
    c.headers = t.headers
    ∧ c.rows = t.rows.filter (fun r =>
        rowRequiredOk t.headers r && pyCellNeZero (getCell t.headers r "Year Published"))
    ∧ ∀ r, r ∈ c.rows ↔
        (r ∈ t.rows ∧ rowRequiredOk t.headers r = true
          ∧ pyCellNeZero (getCell t.headers r "Year Published") = true) := by
  simp only [load_dataset_clean] at h
  split at h
  · injection h with h'
    subst h'
    refine ⟨rfl, ?_, ?_⟩
    · show ((t.rows.filter _).filter _) = _
      rw [List.filter_filter]
      congr 1
      funext r
      exact Bool.and_comm _ _
    · intro r
      show r ∈ (t.rows.filter _).filter _ ↔ _
      simp only [List.mem_filter]
      tauto
  · exact absurd h (by simp)

/-- C4 witness: the characterisation evaluated on `demoTable`, whose
null-`Name` row and year-0 row are dropped and whose clean row
survives. -/
theorem claim_C4_witness :
    load_dataset_clean "dataset.csv" (some demoTable) = .ok demoCleanTable
    ∧ demoCleanTable.headers = demoTable.headers
    ∧ demoCleanTable.rows = demoTable.rows.filter (fun r =>
        rowRequiredOk demoTable.headers r &&
        pyCellNeZero (getCell demoTable.headers r "Year Published"))
    ∧ ([Cell.str "A", Cell.num 1999, Cell.str "m1"] ∈ demoCleanTable.rows ↔
        ([Cell.str "A", Cell.num 1999, Cell.str "m1"] ∈ demoTable.rows
          ∧ rowRequiredOk demoTable.headers [Cell.str "A", Cell.num 1999, Cell.str "m1"] = true
          ∧ pyCellNeZero (getCell demoTable.headers
              [Cell.str "A", Cell.num 1999, Cell.str "m1"] "Year Published") = true)) :=
  ⟨rfl, (claim_C4 "dataset.csv" demoTable demoCleanTable rfl).1,
   (claim_C4 "dataset.csv" demoTable demoCleanTable rfl).2.1,
   (claim_C4 "dataset.csv" demoTable demoCleanTable rfl).2.2 _⟩

/-- C9: the loader fails with `FileNotFoundError` when the input file
does not exist, fails with the `ValueError` standing for `SchemaError`
when any of the required header fields `Name`, `Year Published`,
`Mechanics` is absent, and in all other cases returns the cleaned
dataset. -/
theorem claim_C9 (path : String) (file : Option Table) :
    (file = none →
      load_dataset_clean path file =
        .error (.fileNotFoundError ("File not found: " ++ path)))
    ∧ (∀ t, file = some t → requiredPresent t = false →
        load_dataset_clean path file =
          .error (.valueError "Dataset is missing required columns"))
    ∧ (∀ t, file = some t → requiredPresent t = true →
        load_dataset_clean path file = .ok (yearNonZero (dropnaRequired t))) := by
  refine ⟨?_, ?_, ?_⟩
  · rintro rfl
    rfl
  · rintro t rfl hreq
    simp [load_dataset_clean, hreq]
  · rintro t rfl hreq
    simp [load_dataset_clean, hreq]

/-- C9 witness: the three branches evaluated concretely — a missing
file, the table `demoBadTable` lacking required columns, and the
well-formed `demoTable`. -/
theorem claim_C9_witness :
    load_dataset_clean "dataset.csv" none =
      .error (.fileNotFoundError ("File not found: " ++ "dataset.csv"))
    ∧ load_dataset_clean "dataset.csv" (some demoBadTable) =
      .error (.valueError "Dataset is missing required columns")
    ∧ load_dataset_clean "dataset.csv" (some demoTable) =
      .ok (yearNonZero (dropnaRequired demoTable)) :=
  ⟨(claim_C9 "dataset.csv" none).1 rfl,
   (claim_C9 "dataset.csv" (some demoBadTable)).2.1 demoBadTable rfl rfl,
   (claim_C9 "dataset.csv" (some demoTable)).2.2 demoTable rfl rfl⟩

/-- C5 (amended): every output the top-N selector may produce (pandas
`sort_values` with its default `kind='quicksort'`, modelled by its
contract: some key-sorted permutation, then `head(200)` and conversion
to plain records) has at most 200 records and is sorted by the
requested field, descending by default.  The order of records tied on
the sort field is NOT determined — the original claim's "stable sort
with ties broken by original order" does not hold, since the default
sort kind is not stable (see the counterexample). -/
theorem claim_C5 (t : Table) (sortBy : String) (out : List PyDict)
    (h : get_top_200_spec t sortBy false out) :
    out.length ≤ 200
    ∧ List.Pairwise (fun a b =>
        cellOrdB false (recordGet a sortBy) (recordGet b sortBy) = true) out := by
  obtain ⟨hcol, sorted, hperm, hpair, hout⟩ := h
  subst hout
  constructor
  · rw [List.length_map, List.length_take]
    exact min_le_left _ _
  · rw [List.pairwise_map]
    exact List.Pairwise.sublist (List.take_sublist _ _) hpair

/-- C5 witness: the amended statement evaluated on `demoSortTable`,
whose two distinct ratings admit exactly the descending output. -/
theorem claim_C5_witness :
    get_top_200_spec demoSortTable "Rating Average" false
      [[("Rating Average", Cell.num 5)], [("Rating Average", Cell.num 3)]]
    ∧ ([[("Rating Average", Cell.num 5)], [("Rating Average", Cell.num 3)]] : List PyDict).length ≤ 200
    ∧ List.Pairwise (fun a b =>
        cellOrdB false (recordGet a "Rating Average") (recordGet b "Rating Average") = true)
      [[("Rating Average", Cell.num 5)], [("Rating Average", Cell.num 3)]] := by
  have hs : get_top_200_spec demoSortTable "Rating Average" false
      [[("Rating Average", Cell.num 5)], [("Rating Average", Cell.num 3)]] := by
    refine ⟨by decide, [[Cell.num 5], [Cell.num 3]], ?_, ?_, rfl⟩
    · decide
    · decide
  exact ⟨hs, (claim_C5 demoSortTable "Rating Average" _ hs).1,
         (claim_C5 demoSortTable "Rating Average" _ hs).2⟩

/-- C5 counterexample: on `demoTieTable`, whose two rows are tied on
`Rating Average`, the sort contract of the code admits the output that
lists row `B` before row `A` — the reverse of their original order —
whereas the claim's "ties broken by original order" forces the output
that keeps `A` first.  The code therefore does not guarantee the
claimed tie-breaking. -/
theorem claim_C5_counterexample :
    get_top_200_spec demoTieTable "Rating Average" false
      [[("Name", Cell.str "B"), ("Rating Average", Cell.num 1)],
       [("Name", Cell.str "A"), ("Rating Average", Cell.num 1)]]
    ∧ [[("Name", Cell.str "B"), ("Rating Average", Cell.num 1)],
       [("Name", Cell.str "A"), ("Rating Average", Cell.num 1)]]
      ≠ (demoTieTable.rows.take 200).map (toRecord demoTieTable.headers) := by
  constructor
  · refine ⟨by decide, [[Cell.str "B", Cell.num 1], [Cell.str "A", Cell.num 1]], ?_, ?_, rfl⟩
    · decide
    · decide
  · decide

/-- C8: for a game found in the dataset by name, single-game
verification returns the parsed count divided by the declared mechanic
count — the number of commas in the ORIGINAL unmodified raw mechanics
string plus 1, computed from `mechanics` itself and thus independent of
the "and"/"or" prompt substitutions applied to `mechanics_prompt`; for a
name matching no row it fails with the `ValueError` standing for
`NotFoundError`. -/
theorem claim_C8 (ds : List PyDict) (client : String → Except PyErr String)
    (gameName : String) :
    (∀ (row : PyDict) (rest : List PyDict) (m resp : String) (k : Int),
      ds.filter (fun r => cellEqStr (recordGet r "Name") gameName) = row :: rest →
      List.lookup "Mechanics" row = some (Cell.str m) →
      client (mkPrompt gameName (normalizeMechanics m)) = .ok resp →
      parseCount resp = some k →
      verify_mechanics_with_genai ds client gameName =
        .ok ((k : Rat) / ((countCommas m + 1 : Nat) : Rat)))
    ∧ (ds.filter (fun r => cellEqStr (recordGet r "Name") gameName) = [] →
      verify_mechanics_with_genai ds client gameName =
        .error (.valueError
          ("Game " ++ squote ++ gameName ++ squote ++ " not found in the dataset."))) := by
  constructor
  · intro row rest m resp k hfilter hmech hclient hparse
    unfold verify_mechanics_with_genai
    rw [hfilter]
    simp [hmech, hclient, hparse]
  · intro hfilter
    unfold verify_mechanics_with_genai
    rw [hfilter]

/-- C8 witness: both branches evaluated concretely on `demoGames` — the
present game `"G"` (mechanics `"x,y"`: one comma, so declared count 2,
parsed count 1, ratio 1/2) and the absent name `"Z"`. -/
theorem claim_C8_witness :
    demoGames.filter (fun r => cellEqStr (recordGet r "Name") "G") = demoGame :: []
    ∧ List.lookup "Mechanics" demoGame = some (Cell.str "x,y")
    ∧ demoClient (mkPrompt "G" (normalizeMechanics "x,y")) = .ok "1"
    ∧ parseCount "1" = some 1
    ∧ verify_mechanics_with_genai demoGames demoClient "G" =
        .ok (((1 : Int) : Rat) / ((countCommas "x,y" + 1 : Nat) : Rat))
    ∧ demoGames.filter (fun r => cellEqStr (recordGet r "Name") "Z") = []
    ∧ verify_mechanics_with_genai demoGames demoClient "Z" =
        .error (.valueError
          ("Game " ++ squote ++ "Z" ++ squote ++ " not found in the dataset.")) :=
  ⟨rfl, rfl, rfl, rfl,
   (claim_C8 demoGames demoClient "G").1 demoGame [] "x,y" "1" 1 rfl rfl rfl rfl,
   rfl,
   (claim_C8 demoGames demoClient "Z").2 rfl⟩

end BoardGame
